import Mathlib

/-!
Verification development for the incus seccomp syscall-interception
supervisor (internal/server/seccomp, shallowly embedded from the Go/cgo
source).  External effects (reads of the target's memory, `/proc` lookups,
id-map shifts, the forksyscall bridge child) are modelled as oracle
parameters carrying the outcome of each effect; everything that the Go code
computes itself is translated directly.
-/

namespace Seccomp

/-! ## Configuration-value helpers

Modelled from the spec: the `security.syscalls.*` keys are boolean options
parsed by the repository's shared `util.IsTrue` / `util.IsFalse` helpers
(not under `src/`): the value is lowercased and compared against
`true/1/yes/on` resp. `false/0/no/off`; `IsFalseOrEmpty` also accepts the
empty string. -/

/-- Modelled from the spec: ASCII lowercasing used by the boolean config
parser (`strings.ToLower` in the Go helper). -/
def strToLower (s : String) : String := ⟨s.data.map Char.toLower⟩

/-- Modelled from the spec: `util.IsTrue` — value is one of true/1/yes/on. -/
def cfgIsTrue (s : String) : Bool := ["true", "1", "yes", "on"].contains (strToLower s)

/-- Modelled from the spec: `util.IsFalse` — value is one of false/0/no/off. -/
def cfgIsFalse (s : String) : Bool := ["false", "0", "no", "off"].contains (strToLower s)

/-- Modelled from the spec: `util.IsFalseOrEmpty`. -/
def cfgIsFalseOrEmpty (s : String) : Bool := s == "" || cfgIsFalse s

/-- A Go `map[string]string` lookup: a missing key reads as `""`. -/
def cfgGet (cfg : String → Option String) (k : String) : String := (cfg k).getD ""

/-- Two's-complement interpretation of the low 32 bits of a 64-bit value,
as produced by the `C.int(...)` / `int32(...)` casts in the handlers. -/
def toInt32 (n : Nat) : Int :=
  let m := n % 4294967296
  if m < 2147483648 then (m : Int) else (m : Int) - 4294967296

/-- Two's-complement interpretation of a 64-bit value, as produced by the
Go `int(...)` cast (64-bit daemon) of a syscall argument. -/
def toInt64 (n : Nat) : Int :=
  let m := n % 18446744073709551616
  if m < 9223372036854775808 then (m : Int) else (m : Int) - 18446744073709551616

/-- Substring containment on the underlying character lists (used to state
that a compiled profile contains a given rule line). -/
def strContains (hay needle : String) : Prop :=
  ∃ a b : List Char, hay.data = a ++ needle.data ++ b

/-! ## Device allow-set (C `device_allowed`, src line 1293) -/

/-- glibc `makedev(maj, min)`. -/
def makedev (maj min : Nat) : Nat :=
  ((maj &&& 0xfffff000) <<< 32) ||| ((maj &&& 0xfff) <<< 8) |||
    ((min &&& 0xffffff00) <<< 12) ||| (min &&& 0xff)

/-- `S_IFMT` file-type mask. -/
def S_IFMT : Nat := 61440

/-- `S_IFCHR` character-device file type. -/
def S_IFCHR : Nat := 8192

/-- C `device_allowed(dev, mode)`: 0 for the whitelisted character devices,
`-EPERM` otherwise (any non-character mode falls through to `-EPERM`). -/
def device_allowed (dev : Nat) (mode : Nat) : Int :=
  if mode &&& S_IFMT = S_IFCHR then
    if dev = makedev 0 0 then 0        -- whiteout
    else if dev = makedev 5 1 then 0   -- /dev/console
    else if dev = makedev 1 7 then 0   -- /dev/full
    else if dev = makedev 1 3 then 0   -- /dev/null
    else if dev = makedev 1 8 then 0   -- /dev/random
    else if dev = makedev 5 0 then 0   -- /dev/tty
    else if dev = makedev 1 9 then 0   -- /dev/urandom
    else if dev = makedev 1 5 then 0   -- /dev/zero
    else -1
  else -1

/-! ## Arch/syscall classifier (C `seccomp_notify_syscall_table` and
`seccomp_notify_get_syscall`, src lines 1340-1446) -/

/-- One row of `struct incus_seccomp_data_arch`.  `arch` is stored as the
unsigned 32-bit image of the C `int` (the C comparison against the request's
`__u32 arch` converts through `unsigned`), so the `-1` of the first row is
4294967295.  Syscall-number slots keep the C `int` signedness. -/
structure ArchEntry where
  arch : Nat
  nr_mknod : Int
  nr_mknodat : Int
  nr_setxattr : Int
  nr_mount : Int
  nr_bpf : Int
  nr_sched_setscheduler : Int
  nr_sysinfo : Int
deriving DecidableEq

/-- The static table, rows in source order (all `#ifdef AUDIT_ARCH_*` guards
taken as satisfied; the numeric values are the `linux/audit.h` constants). -/
def seccomp_notify_syscall_table : List ArchEntry :=
  [⟨4294967295, 0, 1, 2, 3, 4, 5, 6⟩,          -- { -1, NOTIFY_* macros }
   ⟨3221225534, 133, 259, 188, 165, 321, 144, 99⟩,   -- AUDIT_ARCH_X86_64
   ⟨1073741827, 14, 297, 226, 21, 357, 156, 116⟩,    -- AUDIT_ARCH_I386
   ⟨3221225655, -1, 33, 5, 40, 280, 119, 179⟩,       -- AUDIT_ARCH_AARCH64
   ⟨1073741864, 14, 324, 226, 21, 386, 156, 116⟩,    -- AUDIT_ARCH_ARM
   ⟨40, 14, 324, 226, 21, 386, 156, 116⟩,            -- AUDIT_ARCH_ARMEB
   ⟨22, 14, 290, 224, 21, 351, 156, 116⟩,            -- AUDIT_ARCH_S390
   ⟨2147483670, 14, 290, 224, 21, 351, 156, 116⟩,    -- AUDIT_ARCH_S390X
   ⟨20, 14, 288, 209, 21, 361, 156, 116⟩,            -- AUDIT_ARCH_PPC
   ⟨2147483669, 14, 288, 209, 21, 361, 156, 116⟩,    -- AUDIT_ARCH_PPC64
   ⟨3221225493, 14, 288, 209, 21, 361, 156, 116⟩,    -- AUDIT_ARCH_PPC64LE
   ⟨3221225715, -1, 33, 5, 40, 280, 119, 179⟩,       -- AUDIT_ARCH_RISCV64
   ⟨2, 14, 286, 169, 167, 349, 243, 214⟩,            -- AUDIT_ARCH_SPARC
   ⟨2147483691, 14, 286, 169, 167, 349, 243, 214⟩,   -- AUDIT_ARCH_SPARC64
   ⟨8, 14, 290, 224, 21, -1, 141, 4116⟩,             -- AUDIT_ARCH_MIPS
   ⟨1073741832, 14, 290, 224, 21, -1, 141, 4116⟩,    -- AUDIT_ARCH_MIPSEL
   ⟨2147483656, 131, 249, 180, 160, -1, 141, 5097⟩,  -- AUDIT_ARCH_MIPS64
   ⟨2684354568, 131, 253, 180, 160, -1, 141, 4116⟩,  -- AUDIT_ARCH_MIPS64N32
   ⟨3221225480, 131, 249, 180, 160, -1, 141, 5097⟩,  -- AUDIT_ARCH_MIPSEL64
   ⟨3758096392, 131, 253, 180, 160, -1, 141, 4116⟩,  -- AUDIT_ARCH_MIPSEL64N32
   ⟨3221225730, -1, 33, 5, 40, 280, 119, 179⟩]       -- AUDIT_ARCH_LOONGARCH64

/-- The inner if-chain of `seccomp_notify_get_syscall` on the row whose arch
matched: first slot equal to the request's `nr` wins, else the loop breaks
with `-EINVAL`. -/
def rowMatch (e : ArchEntry) (nr : Int) : Int :=
  if e.nr_mknod = nr then 0
  else if e.nr_mknodat = nr then 1
  else if e.nr_setxattr = nr then 2
  else if e.nr_mount = nr then 3
  else if e.nr_bpf = nr then 4
  else if e.nr_sched_setscheduler = nr then 5
  else if e.nr_sysinfo = nr then 6
  else -22

/-- Linear scan of `seccomp_notify_get_syscall` over a table. -/
def classifyScan : List ArchEntry → Nat → Int → Int
  | [], _, _ => -22
  | e :: rest, arch, nr =>
    if e.arch ≠ arch then classifyScan rest arch nr else rowMatch e nr

/-- C `seccomp_notify_get_syscall`: classification code 0..6, or `-EINVAL`. -/
def seccomp_notify_get_syscall (arch : Nat) (nr : Int) : Int :=
  classifyScan seccomp_notify_syscall_table arch nr

/-- The slot of a row selected by a classification code (for stating which
slot a successful match used). -/
def slotOf (e : ArchEntry) (cat : Int) : Int :=
  if cat = 0 then e.nr_mknod
  else if cat = 1 then e.nr_mknodat
  else if cat = 2 then e.nr_setxattr
  else if cat = 3 then e.nr_mount
  else if cat = 4 then e.nr_bpf
  else if cat = 5 then e.nr_sched_setscheduler
  else if cat = 6 then e.nr_sysinfo
  else -22

/-- The dispatcher `handleSyscall`: a classification outside 0..6 falls to
the default `-EINVAL`; otherwise the matching emulator's result is
returned (abstracted as `run`). -/
def handleSyscallErrno (cls : Int) (run : Int → Int) : Int :=
  if 0 ≤ cls ∧ cls ≤ 6 then run cls else -22

/-! ## Policy compiler (Go `seccompGetPolicyContent`, src lines 1974-2085,
with the string constants of src lines 1725-1844) -/

/-- Probed runtime/LXC capabilities and per-daemon state consulted by the
policy compiler (`state.State`), plus the outcome oracles of its external
probes. -/
structure OSEnv where
  lxcAllowDenySyntax : Bool      -- LXCFeatures["seccomp_allow_deny_syntax"]
  lxcSeccompNotify : Bool        -- LXCFeatures["seccomp_notify"]
  seccompListener : Bool         -- OS.SeccompListener
  seccompListenerContinue : Bool -- OS.SeccompListenerContinue
  seccompListenerAddfd : Bool    -- OS.SeccompListenerAddfd
  runningInUserNS : Bool         -- OS.RunningInUserNS
  lxcNotifyProxyOk : Bool        -- liblxc test container + proxy config succeed
  archName : Option String       -- osarch.ArchitectureName(c.Architecture())

/-- Go `seccompHeader`. -/
def seccompHeader : String := "2\n"

/-- Go `defaultSeccompPolicy`. -/
def defaultSeccompPolicy : String :=
  "reject_force_umount  # comment this to allow umount -f;  not recommended\n[all]\nkexec_load errno 38\nopen_by_handle_at errno 38\ninit_module errno 38\nfinit_module errno 38\ndelete_module errno 38\n"

/-- First line of `seccompNotifyDisallow`: deny `seccomp()` with
`SECCOMP_RET_TRACE` (2146435072) masked-equal. -/
def seccompDisallowTraceRule : String :=
  "seccomp errno 22 [1,2146435072,SCMP_CMP_MASKED_EQ,2146435072]\n"

/-- Second line of `seccompNotifyDisallow`: deny `seccomp()` with
`SECCOMP_FILTER_FLAG_NEW_LISTENER` (8) masked-equal. -/
def seccompDisallowListenerRule : String :=
  "seccomp errno 22 [1,8,SCMP_CMP_MASKED_EQ,8]\n"

/-- Go `seccompNotifyDisallow` (the two anti-escape rules). -/
def seccompNotifyDisallow : String :=
  seccompDisallowTraceRule ++ seccompDisallowListenerRule

/-- Go `seccompNotifyMknod`. -/
def seccompNotifyMknod : String :=
  "mknod notify [1,8192,SCMP_CMP_MASKED_EQ,61440]\nmknod notify [1,24576,SCMP_CMP_MASKED_EQ,61440]\nmknodat notify [2,8192,SCMP_CMP_MASKED_EQ,61440]\nmknodat notify [2,24576,SCMP_CMP_MASKED_EQ,61440]\n"

/-- Go `seccompNotifySetxattr`. -/
def seccompNotifySetxattr : String := "setxattr notify [3,1,SCMP_CMP_EQ]\n"

/-- Go `seccompNotifySchedSetscheduler`. -/
def seccompNotifySchedSetscheduler : String := "sched_setscheduler notify\n"

/-- Go `seccompNotifySysinfo`. -/
def seccompNotifySysinfo : String := "sysinfo notify\n"

/-- Go `seccompBlockNewMountAPI`. -/
def seccompBlockNewMountAPI : String :=
  "fsopen errno 38\nfsconfig errno 38\nfsinfo errno 38\nfsmount errno 38\nfspick errno 38\nopen_tree errno 38\nmove_mount errno 38\nopenat2 errno 38\n"

/-- Go `seccompNotifyMount`. -/
def seccompNotifyMount : String :=
  "mount notify [3,0,SCMP_CMP_MASKED_EQ,18446744070422410016]\n"

/-- Go `seccompNotifyBpf`. -/
def seccompNotifyBpf : String :=
  "bpf notify [0,5,SCMP_CMP_EQ]\nbpf notify [0,8,SCMP_CMP_EQ]\nbpf notify [0,9,SCMP_CMP_EQ]\n"

/-- Go `compatBlockingPolicy` instantiated at the architecture name (the
`%s` of the format string). -/
def compatBlockingPolicy (arch : String) : String :=
  "[" ++ arch ++ "]\ncompat_sys_rt_sigaction errno 38\nstub_x32_rt_sigreturn errno 38\ncompat_sys_ioctl errno 38\ncompat_sys_readv errno 38\ncompat_sys_writev errno 38\ncompat_sys_recvfrom errno 38\ncompat_sys_sendmsg errno 38\ncompat_sys_recvmsg errno 38\nstub_x32_execve errno 38\ncompat_sys_ptrace errno 38\ncompat_sys_rt_sigpending errno 38\ncompat_sys_rt_sigtimedwait errno 38\ncompat_sys_rt_sigqueueinfo errno 38\ncompat_sys_sigaltstack errno 38\ncompat_sys_timer_create errno 38\ncompat_sys_mq_notify errno 38\ncompat_sys_kexec_load errno 38\ncompat_sys_waitid errno 38\ncompat_sys_set_robust_list errno 38\ncompat_sys_get_robust_list errno 38\ncompat_sys_vmsplice errno 38\ncompat_sys_move_pages errno 38\ncompat_sys_preadv64 errno 38\ncompat_sys_pwritev64 errno 38\ncompat_sys_rt_tgsigqueueinfo errno 38\ncompat_sys_recvmmsg errno 38\ncompat_sys_sendmmsg errno 38\ncompat_sys_process_vm_readv errno 38\ncompat_sys_process_vm_writev errno 38\ncompat_sys_setsockopt errno 38\ncompat_sys_getsockopt errno 38\ncompat_sys_io_setup errno 38\ncompat_sys_io_submit errno 38\nstub_x32_execveat errno 38\n"

/-- Go `lxcSupportSeccompNotify`: true iff the check returns nil. -/
def lxcSupportSeccompNotify (os : OSEnv) : Bool :=
  os.seccompListener && os.lxcSeccompNotify && os.lxcNotifyProxyOk

/-- Go `lxcSupportSeccompNotifyContinue`. -/
def lxcSupportSeccompNotifyContinue (os : OSEnv) : Bool :=
  lxcSupportSeccompNotify os && os.seccompListenerContinue

/-- Go `lxcSupportSeccompNotifyAddfd`. -/
def lxcSupportSeccompNotifyAddfd (os : OSEnv) : Bool :=
  lxcSupportSeccompNotify os && os.seccompListenerContinue && os.seccompListenerAddfd

/-- The intercept keys of `InstanceNeedsIntercept` paired with the outcome
of their capability check. -/
def interceptChecks (os : OSEnv) : List (String × Bool) :=
  [("security.syscalls.intercept.mknod", lxcSupportSeccompNotify os),
   ("security.syscalls.intercept.sched_setscheduler", lxcSupportSeccompNotify os),
   ("security.syscalls.intercept.setxattr", lxcSupportSeccompNotify os),
   ("security.syscalls.intercept.sysinfo", lxcSupportSeccompNotify os),
   ("security.syscalls.intercept.mount", lxcSupportSeccompNotifyContinue os),
   ("security.syscalls.intercept.bpf", lxcSupportSeccompNotifyAddfd os)]

/-- Go `InstanceNeedsIntercept`.  The Go loop iterates a map in
unspecified order; the observable result (error if any enabled key's check
fails, else whether any key is enabled) is order-independent and is what is
embedded here. -/
def InstanceNeedsIntercept (os : OSEnv) (privileged : Bool)
    (cfg : String → Option String) : Except Unit Bool :=
  if privileged then .ok false
  else if os.runningInUserNS then .ok false
  else
    let enabled := fun k => !cfgIsFalseOrEmpty (cfgGet cfg k)
    if (interceptChecks os).any (fun p => enabled p.1 && !p.2) then .error ()
    else .ok ((interceptChecks os).any (fun p => enabled p.1))

/-- The `allowlist` local of `seccompGetPolicyContent`: the
`security.syscalls.allow` value, falling back to the `whitelist` spelling
when empty. -/
def seccompAllowlist (cfg : String → Option String) : String :=
  let a := cfgGet cfg "security.syscalls.allow"
  if a = "" then cfgGet cfg "security.syscalls.whitelist" else a

/-- The policy accumulated by `seccompGetPolicyContent` up to and including
the default-deny block: header, mode line with `[all]` marker (old or new
spelling per the probed `seccomp_allow_deny_syntax` feature), the allow-list
text in allow mode, and in deny mode the baseline denials unless
deny_default is present and not true. -/
def seccompPolicyBase (os : OSEnv) (cfg : String → Option String) : String :=
  if seccompAllowlist cfg ≠ "" then
    seccompHeader ++
      (if os.lxcAllowDenySyntax then "allowlist\n[all]\n" else "whitelist\n[all]\n") ++
      seccompAllowlist cfg
  else
    let base0 := seccompHeader ++
      (if os.lxcAllowDenySyntax then "denylist\n[all]\n" else "blacklist\n[all]\n")
    match cfg "security.syscalls.deny_default" with
    | some v => if cfgIsTrue v then base0 ++ defaultSeccompPolicy else base0
    | none =>
      match cfg "security.syscalls.blacklist_default" with
      | some v => if cfgIsTrue v then base0 ++ defaultSeccompPolicy else base0
      | none => base0 ++ defaultSeccompPolicy

/-- The per-category notify rules appended (in source order) when
interception is needed. -/
def seccompInterceptRules (cfg : String → Option String) : String :=
  (if cfgIsTrue (cfgGet cfg "security.syscalls.intercept.mknod") then
    seccompNotifyMknod else "") ++
  (if cfgIsTrue (cfgGet cfg "security.syscalls.intercept.sched_setscheduler") then
    seccompNotifySchedSetscheduler else "") ++
  (if cfgIsTrue (cfgGet cfg "security.syscalls.intercept.setxattr") then
    seccompNotifySetxattr else "") ++
  (if cfgIsTrue (cfgGet cfg "security.syscalls.intercept.sysinfo") then
    seccompNotifySysinfo else "") ++
  (if cfgIsTrue (cfgGet cfg "security.syscalls.intercept.mount") then
    seccompNotifyMount ++ seccompBlockNewMountAPI else "") ++
  (if cfgIsTrue (cfgGet cfg "security.syscalls.intercept.bpf") then
    seccompNotifyBpf else "")

/-- The `compat` local: `deny_compat`, falling back to the `blacklist`
spelling when absent. -/
def seccompCompatV (cfg : String → Option String) : String :=
  match cfg "security.syscalls.deny_compat" with
  | some v => v
  | none => cfgGet cfg "security.syscalls.blacklist_compat"

/-- The `denylist` local: `deny`, falling back to the `blacklist` spelling
when absent. -/
def seccompDenylistV (cfg : String → Option String) : String :=
  match cfg "security.syscalls.deny" with
  | some v => v
  | none => cfgGet cfg "security.syscalls.blacklist"

/-- Go `seccompGetPolicyContent`: raw override verbatim, else the base
policy, then (if interception is needed) the two anti-escape rules followed
by the per-category notify rules, then — in deny mode only — the compat
block (which needs the architecture name) and any raw deny entries. -/
def seccompGetPolicyContent (os : OSEnv) (privileged : Bool)
    (cfg : String → Option String) : Except Unit String :=
  if cfgGet cfg "raw.seccomp" ≠ "" then .ok (cfgGet cfg "raw.seccomp")
  else
    match InstanceNeedsIntercept os privileged cfg with
    | .error e => .error e
    | .ok needs =>
      let policy :=
        if needs then
          seccompPolicyBase os cfg ++
            (seccompNotifyDisallow ++ seccompInterceptRules cfg)
        else seccompPolicyBase os cfg
      if seccompAllowlist cfg ≠ "" then .ok policy
      else if cfgIsTrue (seccompCompatV cfg) then
        match os.archName with
        | none => .error ()
        | some a =>
          let policy2 := policy ++ compatBlockingPolicy a
          .ok (if seccompDenylistV cfg ≠ "" then policy2 ++ seccompDenylistV cfg
               else policy2)
      else
        .ok (if seccompDenylistV cfg ≠ "" then policy ++ seccompDenylistV cfg
             else policy)

/-! ## Frame validation and the per-connection receive step
(Go `IsValidSeccompIovec` src lines 2214-2245, `HandleInvalid` src lines
2512-2518, and the receive loop of `NewSeccompServer` src lines 2309-2348) -/

/-- `struct seccomp_notif_sizes` (the three sizes negotiated with
`SECCOMP_GET_NOTIF_SIZES`). -/
structure SizesRec where
  seccomp_notif : Nat
  seccomp_notif_resp : Nat
  seccomp_data : Nat
deriving DecidableEq

/-- The proxy-header fields of `struct seccomp_notify_proxy_msg` that frame
validation reads. -/
structure ProxyMsg where
  reserved : Nat
  monitor_pid : Int
  init_pid : Int
  sizes : SizesRec
deriving DecidableEq

/-- Supervisor-start state for frame validation: the cached
`SECCOMP_GET_NOTIF_SIZES` result (`C.expected_sizes`) and the platform
constant `SECCOMP_MSG_SIZE_MIN` (sum of the three struct sizes). -/
structure FrameEnv where
  expected : SizesRec
  msgSizeMin : Nat
deriving DecidableEq

/-- Go `IsValidSeccompIovec(size)`. -/
def IsValidSeccompIovec (env : FrameEnv) (msg : ProxyMsg) (bytes : Nat) : Bool :=
  if bytes < env.msgSizeMin then false
  else if msg.reserved ≠ 0 then false
  else if msg.sizes.seccomp_notif ≠ env.expected.seccomp_notif then false
  else if msg.sizes.seccomp_notif_resp ≠ env.expected.seccomp_notif_resp then false
  else if msg.sizes.seccomp_data ≠ env.expected.seccomp_data then false
  else true

/-- Outcome of one `ReceiveSeccompIovec` call. -/
inductive RecvResult where
  | recvErr : RecvResult
  | frame (msg : ProxyMsg) (bytes : Nat) : RecvResult
deriving DecidableEq

/-- What the supervisor replies with for one received message. -/
inductive ReplyKind where
  | noReply : ReplyKind   -- receive failed, nothing sent
  | empty : ReplyKind     -- HandleInvalid: empty sendmsg (short write)
  | full : ReplyKind      -- HandleValid: three-iovec response
deriving DecidableEq

/-- The action the receive loop takes for one receive. -/
structure StepAction where
  reply : ReplyKind
  closes : Bool
deriving DecidableEq

/-- One iteration of the per-connection receive loop in `NewSeccompServer`:
a failed receive closes the connection; an invalid frame is answered by
`HandleInvalid` (empty reply) and the loop keeps receiving; a valid frame
goes to `HandleValid` and the loop keeps receiving. -/
def connStep (env : FrameEnv) : RecvResult → StepAction
  | .recvErr => ⟨.noReply, true⟩
  | .frame msg bytes =>
    if IsValidSeccompIovec env msg bytes then ⟨.full, false⟩ else ⟨.empty, false⟩

/-! ## Emulators

Each handler is embedded over the notification data it reads
(`seccomp_notif.pid` and `data.args[0..4]`, all 64-bit unsigned) and an
oracle record for its external effects.  A handler's result captures the Go
return value (the errno the dispatcher sends), whether the handler OR-ed
`SECCOMP_USER_NOTIF_FLAG_CONTINUE` into the response flags, and the
forksyscall bridge invocation, if any, with its argument vector.
Errno constants: EPERM=1, EINVAL=22, ENOANO=55, ENOMEDIUM=123. -/

/-- The argument slots of `seccomp_data` a handler consumes, plus the
notifying thread's pid. -/
structure SeccompReq where
  pid : Nat
  args0 : Nat
  args1 : Nat
  args2 : Nat
  args3 : Nat
  args4 : Nat
deriving DecidableEq

/-- Outcome of one `subprocess.RunCommandSplit` bridge invocation:
success, failure with a stderr that parses to an errno, or failure with
unparsable stderr. -/
inductive RunResult where
  | success : RunResult
  | failParsed (errno : Int) : RunResult
  | failUnparsable : RunResult
deriving DecidableEq

/-- The errno a bridge caller derives from a `RunResult` (the shared
pattern of `CallForkmknod`, setxattr and sched_setscheduler: success is 0,
unparsable stderr or `ENOANO` collapse to `-EPERM`, else `-errno`). -/
def bridgeErrno : RunResult → Int
  | .success => 0
  | .failUnparsable => -1
  | .failParsed e => if e = 55 then -1 else -e

/-- Oracles for the device syscall tail (`CallForkmknod` +
`doDeviceSyscall`): the `/proc/<pid>/status` credential lookup, the bridge
child, and the `InsertSeccompUnixDevice` fallback. -/
structure DeviceEnv where
  taskIDs : Option (Int × Int × Int × Int)  -- TaskIDs: (uid, gid, fsuid, fsgid)
  run : RunResult
  insertOk : Bool
deriving DecidableEq

/-- The `MknodArgs` the handlers build before delegating to
`doDeviceSyscall`. -/
structure MknodArgsRec where
  pid : Nat
  path : String
  mode : Nat
  dev : Nat
deriving DecidableEq

/-- A `forksyscall mknod` bridge invocation (argument vector of
`CallForkmknod`). -/
structure MknodCall where
  pid : Nat
  path : String
  mode : Nat
  dev : Nat
  uid : Int
  gid : Int
  fsuid : Int
  fsgid : Int
deriving DecidableEq

/-- Result of a mknod/mknodat handler. -/
structure MknodOut where
  ret : Int
  cont : Bool
  bridge : Option MknodCall
  insertCalled : Bool
deriving DecidableEq

/-- Go `CallForkmknod` (src lines 2473-2510): credentials lookup, then the
bridge child; returns the derived errno and the invocation (if the child
was started at all). -/
def CallForkmknod (env : DeviceEnv) (a : MknodArgsRec) : Int × Option MknodCall :=
  match env.taskIDs with
  | none => (-1, none)
  | some (u, g, fu, fg) =>
    (bridgeErrno env.run, some ⟨a.pid, a.path, a.mode, a.dev, u, g, fu, fg⟩)

/-- Go `doDeviceSyscall` (src lines 2528-2550): bridge first; only the
sentinel `-ENOMEDIUM` falls back to `InsertSeccompUnixDevice`, success of
which yields 0, failure `-EPERM`. -/
def doDeviceSyscall (env : DeviceEnv) (a : MknodArgsRec) : MknodOut :=
  let r := CallForkmknod env a
  if r.1 ≠ -123 then ⟨r.1, false, r.2, false⟩
  else if env.insertOk then ⟨0, false, r.2, true⟩
  else ⟨-1, false, r.2, true⟩

/-- Oracles for the mknod/mknodat handlers: the path `pread` from the
target's memory and the device-syscall tail. -/
structure MknodEnv where
  preadOk : Bool
  path : String
  dev : DeviceEnv
deriving DecidableEq

/-- Go `HandleMknodSyscall` (src lines 2553-2602).  Note: on a disallowed
device the strict-mode branch returns `int(siov.resp.error)`, and
`resp.error` still holds its zeroed initial value at that point (the
`device_allowed` result is only tested, never assigned), so the handler
returns 0 there. -/
def HandleMknodSyscall (permissive : Bool) (req : SeccompReq) (env : MknodEnv) : MknodOut :=
  if device_allowed req.args2 (req.args1 % 4294967296) < 0 then
    if permissive then ⟨0, true, none, false⟩
    else ⟨0, false, none, false⟩
  else if env.preadOk = false then
    if permissive then ⟨0, true, none, false⟩
    else ⟨-1, false, none, false⟩
  else
    doDeviceSyscall env.dev ⟨req.pid, env.path, req.args1 % 4294967296, req.args2⟩

/-- The body of `HandleMknodatSyscall` after the dirfd check (device
allow-set check, path read, device syscall). -/
def mknodatDeviceStage (permissive : Bool) (req : SeccompReq) (env : MknodEnv) : MknodOut :=
  let devErr := device_allowed req.args3 (req.args2 % 4294967296)
  if devErr ≠ 0 then
    if permissive then ⟨0, true, none, false⟩
    else ⟨devErr, false, none, false⟩
  else if env.preadOk = false then
    if permissive then ⟨0, true, none, false⟩
    else ⟨-1, false, none, false⟩
  else
    doDeviceSyscall env.dev ⟨req.pid, env.path, req.args2 % 4294967296, req.args3⟩

/-- Go `HandleMknodatSyscall` (src lines 2605-2668).  The dirfd test is
`int32(siov.req.data.args[0]) != int32(C.AT_FDCWD)`: only the low 32 bits
of `args[0]` are compared with `AT_FDCWD` (-100, i.e. 4294967196 as u32). -/
def HandleMknodatSyscall (permissive : Bool) (req : SeccompReq) (env : MknodEnv) : MknodOut :=
  if req.args0 % 4294967296 ≠ 4294967196 then
    if permissive then ⟨0, true, none, false⟩
    else ⟨-22, false, none, false⟩
  else mknodatDeviceStage permissive req env

/-- Oracles for the setxattr handler: credentials, id-map shifts, the three
memory reads and the bridge child. -/
structure XattrEnv where
  taskIDs : Option (Int × Int × Int × Int)
  idmap : Option ((Int × Int) × (Int × Int))  -- ShiftFromNS (uid,gid), (fsuid,fsgid)
  preadPathOk : Bool
  path : String
  preadNameOk : Bool
  name : String
  preadValueOk : Bool
  value : String
  run : RunResult
deriving DecidableEq

/-- A `forksyscall setxattr` bridge invocation. -/
structure XattrCall where
  pid : Nat
  nsuid : Int
  nsgid : Int
  nsfsuid : Int
  nsfsgid : Int
  name : String
  path : String
  flags : Int
  whiteout : Nat
  size : Int
  value : String
deriving DecidableEq

/-- Result of the setxattr handler. -/
structure XattrOut where
  ret : Int
  cont : Bool
  bridge : Option XattrCall
deriving DecidableEq

/-- Go `HandleSetxattrSyscall` (src lines 2685-2824). -/
def HandleSetxattrSyscall (permissive : Bool) (req : SeccompReq) (env : XattrEnv) : XattrOut :=
  match env.taskIDs with
  | none => if permissive then ⟨0, true, none⟩ else ⟨-1, false, none⟩
  | some _ =>
    match env.idmap with
    | none => if permissive then ⟨0, true, none⟩ else ⟨-22, false, none⟩
    | some shifts =>
      if env.preadPathOk = false then
        if permissive then ⟨0, true, none⟩ else ⟨-1, false, none⟩
      else if env.preadNameOk = false then
        if permissive then ⟨0, true, none⟩ else ⟨-1, false, none⟩
      else
        let size := toInt64 req.args3
        let flags := toInt32 req.args4
        if env.preadValueOk = false then
          if permissive then ⟨0, true, none⟩ else ⟨-1, false, none⟩
        else if env.name = "trusted.overlay.opaque" ∧ env.value = "y" then
          let call : XattrCall :=
            ⟨req.pid, shifts.1.1, shifts.1.2, shifts.2.1, shifts.2.2,
             env.name, env.path, flags, 1, size, env.value⟩
          ⟨bridgeErrno env.run, false, some call⟩
        else if permissive then ⟨0, true, none⟩
        else
          let call : XattrCall :=
            ⟨req.pid, shifts.1.1, shifts.1.2, shifts.2.1, shifts.2.2,
             env.name, env.path, flags, 0, size, env.value⟩
          ⟨bridgeErrno env.run, false, some call⟩

/-- Oracles for the sched_setscheduler handler. -/
structure SchedEnv where
  taskIDs : Option (Int × Int × Int × Int)
  idmap : Option (Int × Int)  -- ShiftFromNS(uid, gid) = (nsuid, nsgid)
  preadOk : Bool
  priority : Int               -- sched_param.sched_priority read from memory
  run : RunResult
deriving DecidableEq

/-- A `forksyscall sched_setscheduler` bridge invocation. -/
structure SchedCall where
  pidCaller : Nat
  switchPidns : Nat
  pidTarget : Int
  policy : Int
  priority : Int
deriving DecidableEq

/-- Result of the sched_setscheduler handler. -/
structure SchedOut where
  ret : Int
  cont : Bool
  bridge : Option SchedCall
deriving DecidableEq

/-- Go `HandleSchedSetschedulerSyscall` (src lines 2838-2972).  The source
tests `args.policy < 0` while `args.policy` still holds its zero initial
value and only afterwards assigns `args.policy = C.int(siov.req.data.args[1])`;
the test is embedded at the same point, on the same dead zero. -/
def HandleSchedSetschedulerSyscall (permissive : Bool) (req : SeccompReq)
    (env : SchedEnv) : SchedOut :=
  match env.taskIDs with
  | none => if permissive then ⟨0, true, none⟩ else ⟨-1, false, none⟩
  | some _ =>
    match env.idmap with
    | none => if permissive then ⟨0, true, none⟩ else ⟨-22, false, none⟩
    | some (nsuid, nsgid) =>
      if nsuid ≠ 0 ∨ nsgid ≠ 0 then
        if permissive then ⟨0, true, none⟩ else ⟨-22, false, none⟩
      else
        let pidTarget0 := toInt64 req.args0
        if pidTarget0 < 0 then
          if permissive then ⟨0, true, none⟩ else ⟨-22, false, none⟩
        else
          let pidTarget := if pidTarget0 = 0 then (req.pid : Int) else pidTarget0
          let switchPidns : Nat := if pidTarget0 = 0 then 0 else 1
          let policy0 : Int := 0  -- args.policy at the time of the check
          if policy0 < 0 then
            if permissive then ⟨0, true, none⟩ else ⟨-22, false, none⟩
          else
            let policy := toInt32 req.args1
            if env.preadOk = false then
              if permissive then ⟨0, true, none⟩ else ⟨-1, false, none⟩
            else
              ⟨bridgeErrno env.run, false,
               some ⟨req.pid, switchPidns, pidTarget, policy, env.priority⟩⟩

/-- Oracles for the bpf handler: PidFdsThread support, the `FindTGID`
lookup and the C `handle_bpf_syscall` return value. -/
structure BpfEnv where
  pidfdThread : Bool
  tgid : Option Int   -- FindTGID result; none models a lookup error
  cRet : Int          -- handle_bpf_syscall return value
deriving DecidableEq

/-- Result of the bpf handler. -/
structure BpfOut where
  ret : Int
  cont : Bool
deriving DecidableEq

/-- Go `HandleBpfSyscall` (src lines 3502-3565).  Every failure path
replies `flags=CONTINUE` without consulting the permissive flag (the
parameter is unused, as in the source, which never reads
`SeccompListenerContinue` here). -/
def HandleBpfSyscall (_permissive : Bool) (bpfDevicesCfg : String) (env : BpfEnv) : BpfOut :=
  if cfgIsFalseOrEmpty bpfDevicesCfg then ⟨0, true⟩
  else
    let tgidOk :=
      if env.pidfdThread then true
      else match env.tgid with
        | none => false
        | some t => t ≠ -1
    if tgidOk = false then ⟨0, true⟩
    else if env.cRet < 0 then ⟨0, true⟩
    else ⟨env.cRet, false⟩

/-! ## Concrete fixtures used by counterexamples and witnesses -/

/-- A fully notify-capable, non-nested daemon state. -/
def osAllCaps : OSEnv := ⟨true, true, true, true, true, false, true, some "x86_64"⟩

/-- Config with a raw override and one intercept key enabled. -/
def cfgRawPlusMknod : String → Option String := fun k =>
  if k = "raw.seccomp" then some "x\n"
  else if k = "security.syscalls.intercept.mknod" then some "true" else none

/-- Config with only `security.syscalls.intercept.mknod` enabled. -/
def cfgMknodOnly : String → Option String := fun k =>
  if k = "security.syscalls.intercept.mknod" then some "true" else none

/-- The profile `cfgMknodOnly` compiles to under `osAllCaps`. -/
def policyMknodOnly : String :=
  "2\ndenylist\n[all]\nreject_force_umount  # comment this to allow umount -f;  not recommended\n[all]\nkexec_load errno 38\nopen_by_handle_at errno 38\ninit_module errno 38\nfinit_module errno 38\ndelete_module errno 38\nseccomp errno 22 [1,2146435072,SCMP_CMP_MASKED_EQ,2146435072]\nseccomp errno 22 [1,8,SCMP_CMP_MASKED_EQ,8]\nmknod notify [1,8192,SCMP_CMP_MASKED_EQ,61440]\nmknod notify [1,24576,SCMP_CMP_MASKED_EQ,61440]\nmknodat notify [2,8192,SCMP_CMP_MASKED_EQ,61440]\nmknodat notify [2,24576,SCMP_CMP_MASKED_EQ,61440]\n"

/-- Config with deny_default explicitly false and nothing else. -/
def cfgDenyDefaultFalse : String → Option String := fun k =>
  if k = "security.syscalls.deny_default" then some "false" else none

/-- Config with deny_default explicitly false plus one deny entry. -/
def cfgDenyDefaultFalsePlusDeny : String → Option String := fun k =>
  if k = "security.syscalls.deny_default" then some "false"
  else if k = "security.syscalls.deny" then some "kexec_load errno 38\n" else none

/-! ## Shared helper lemmas -/

theorem seccompNotifyDisallow_text :
    seccompNotifyDisallow =
      "seccomp errno 22 [1,2146435072,SCMP_CMP_MASKED_EQ,2146435072]\nseccomp errno 22 [1,8,SCMP_CMP_MASKED_EQ,8]\n" := by
  decide

theorem strContains_append_right (h t n : String) :
    strContains h n → strContains (h ++ t) n := by
  rintro ⟨a, b, hab⟩
  exact ⟨a, b ++ t.data, by simp [String.data_append, hab]⟩

theorem strContains_core_trace (base c : String) :
    strContains (base ++ (seccompNotifyDisallow ++ c)) seccompDisallowTraceRule :=
  ⟨base.data, seccompDisallowListenerRule.data ++ c.data, by
    simp [seccompNotifyDisallow, String.data_append]⟩

theorem strContains_core_listener (base c : String) :
    strContains (base ++ (seccompNotifyDisallow ++ c)) seccompDisallowListenerRule :=
  ⟨base.data ++ seccompDisallowTraceRule.data, c.data, by
    simp [seccompNotifyDisallow, String.data_append]⟩

theorem strContains_length {hay needle : String} (h : strContains hay needle) :
    needle.length ≤ hay.length := by
  obtain ⟨a, b, hab⟩ := h
  have hl := congrArg List.length hab
  simp only [List.length_append] at hl
  simp only [String.length]
  omega

theorem doDeviceSyscall_cont (env : DeviceEnv) (a : MknodArgsRec) :
    (doDeviceSyscall env a).cont = false := by
  simp only [doDeviceSyscall]
  split_ifs <;> rfl

theorem classifyScan_all_ne (l : List ArchEntry) (arch : Nat) (nr : Int)
    (h : l.all (fun e => e.arch != arch) = true) :
    classifyScan l arch nr = -22 := by
  induction l with
  | nil => rfl
  | cons e rest ih =>
    simp only [List.all_cons, Bool.and_eq_true, bne_iff_ne] at h
    unfold classifyScan
    rw [if_pos h.1]
    exact ih (by simpa using h.2)

/-! ## Claim theorems -/

/-- C1 (counterexample): in strict mode (permissive off) the bpf handler
does set the CONTINUE flag — here on a notification for an instance whose
config does not set `security.syscalls.intercept.bpf.devices`, the handler
replies `(0, CONTINUE)` without ever consulting the permissive flag. -/
theorem bpf_handler_sets_continue_in_strict_mode :
    (HandleBpfSyscall false "" ⟨true, none, 0⟩).cont = true ∧
    (HandleBpfSyscall false "" ⟨true, none, 0⟩).ret = 0 := by
  decide

set_option maxHeartbeats 1000000 in
/-- C1 (amended): in strict mode the mknod, mknodat, setxattr and
sched_setscheduler handlers never set the CONTINUE flag on the response
they return, whatever the notification and the outcomes of their external
effects; the mount and bpf handlers (and sysinfo) are not in this list
because their failure paths reply CONTINUE regardless of the permissive
flag. -/
theorem strict_mode_core_handlers_never_continue :
    ∀ (req : SeccompReq) (e1 e2 : MknodEnv) (e3 : XattrEnv) (e4 : SchedEnv),
      (HandleMknodSyscall false req e1).cont = false ∧
      (HandleMknodatSyscall false req e2).cont = false ∧
      (HandleSetxattrSyscall false req e3).cont = false ∧
      (HandleSchedSetschedulerSyscall false req e4).cont = false := by
  intro req e1 e2 e3 e4
  refine ⟨?_, ?_, ?_, ?_⟩
  · simp only [HandleMknodSyscall]
    split_ifs <;> first | rfl | contradiction | exact doDeviceSyscall_cont ..
  · simp only [HandleMknodatSyscall, mknodatDeviceStage]
    split_ifs <;> first | rfl | contradiction | exact doDeviceSyscall_cont ..
  · simp only [HandleSetxattrSyscall]
    cases e3.taskIDs <;> cases e3.idmap <;>
      · simp only []
        split_ifs <;> first | rfl | contradiction
  · simp only [HandleSchedSetschedulerSyscall]
    cases e4.taskIDs <;> cases e4.idmap <;>
      first
      | (split_ifs <;> first | rfl | contradiction)
      | · rename_i p
          obtain ⟨nsuid, nsgid⟩ := p
          simp only []
          split_ifs <;> first | rfl | contradiction

/-- C2 (code evaluated at the failing input): an x86_64 mknod of /dev/sda
(`mode=0o060600`, `dev=makedev(8,0)`) in strict mode does not invoke the
bridge, does not set CONTINUE, but replies errno 0 — not `-EPERM` — because
the handler returns the still-zero `resp.error` on the device-refusal
path. -/
theorem mknod_dev_sda_strict_replies_zero :
    HandleMknodSyscall false ⟨1000, 4096, 24960, 2048, 0, 0⟩
        ⟨true, "/dev/sda", ⟨some (0, 0, 0, 0), .success, true⟩⟩ =
      ⟨0, false, none, false⟩ ∧
    (HandleMknodSyscall false ⟨1000, 4096, 24960, 2048, 0, 0⟩
        ⟨true, "/dev/sda", ⟨some (0, 0, 0, 0), .success, true⟩⟩).ret ≠ -1 := by
  decide

/-- C3 (code evaluated at the failing input): a sched_setscheduler
notification with `args[1] = 2^64-1` (policy −1 as a C int) from a
namespace-root caller is not refused: the dead `policy < 0` check tests the
zero-initialised local before the argument is assigned, so the bridge is
invoked with policy −1 and the handler replies 0, not `-EINVAL`. -/
theorem sched_negative_policy_reaches_bridge :
    (HandleSchedSetschedulerSyscall false ⟨1000, 1, 18446744073709551615, 8, 0, 0⟩
        ⟨some (100000, 100000, 100000, 100000), some (0, 0), true, 0, .success⟩).bridge =
      some ⟨1000, 1, 1, -1, 0⟩ ∧
    (HandleSchedSetschedulerSyscall false ⟨1000, 1, 18446744073709551615, 8, 0, 0⟩
        ⟨some (100000, 100000, 100000, 100000), some (0, 0), true, 0, .success⟩).ret = 0 ∧
    (HandleSchedSetschedulerSyscall false ⟨1000, 1, 18446744073709551615, 8, 0, 0⟩
        ⟨some (100000, 100000, 100000, 100000), some (0, 0), true, 0, .success⟩).ret ≠ -22 := by
  decide

/-- C7 (counterexample): a table slot holding −1 does match a request whose
`nr` is −1: on AUDIT_ARCH_AARCH64 (whose `nr_mknod` slot is −1) a request
with `nr = -1` is classified as mknod (code 0), not as unknown. -/
theorem minus_one_slot_matches_nr_minus_one :
    seccomp_notify_get_syscall 3221225655 (-1) = 0 := by
  decide

/-- C7 (amended): a −1 slot never matches a request nr other than −1 (any
successful classification's slot equals the request nr, so a nonnegative nr
never selects a −1 slot); a request with `nr = -1` does match a −1 slot
(see the counterexample); an arch matching no row is classified `-EINVAL`,
and the dispatcher answers `-EINVAL` for any classification outside the
seven categories. -/
theorem classifier_slot_match_and_unknown :
    (∀ (e : ArchEntry) (nr cat : Int), rowMatch e nr = cat → 0 ≤ cat →
      slotOf e cat = nr) ∧
    (∀ (arch : Nat) (nr : Int),
      seccomp_notify_syscall_table.all (fun e => e.arch != arch) = true →
      seccomp_notify_get_syscall arch nr = -22) ∧
    (∀ (cls : Int) (run : Int → Int), cls < 0 ∨ 6 < cls →
      handleSyscallErrno cls run = -22) := by
  refine ⟨?_, ?_, ?_⟩
  · intro e nr cat h hcat
    unfold rowMatch at h
    unfold slotOf
    split_ifs at h with h1 h2 h3 h4 h5 h6 h7 <;> subst h <;> norm_num <;>
      first
      | assumption
      | omega
  · intro arch nr h
    exact classifyScan_all_ne _ arch nr h
  · intro cls run h
    unfold handleSyscallErrno
    rw [if_neg]
    omega

/-- C7 (witness for the amended theorem): instantiations — the x86_64 row's
mknod slot equals 133 whenever 133 classifies as mknod; an unknown arch
(7) classifies as `-EINVAL`; and the dispatcher answers `-EINVAL` for the
classification `-EINVAL`. -/
theorem classifier_slot_match_and_unknown_witness :
    slotOf ⟨3221225534, 133, 259, 188, 165, 321, 144, 99⟩ 0 = 133 ∧
    seccomp_notify_get_syscall 7 7 = -22 ∧
    handleSyscallErrno (-22) (fun _ => 0) = -22 := by
  refine ⟨?_, ?_, ?_⟩
  · exact classifier_slot_match_and_unknown.1 ⟨3221225534, 133, 259, 188, 165, 321, 144, 99⟩
      133 0 (by decide) (by decide)
  · exact classifier_slot_match_and_unknown.2.1 7 7 (by decide)
  · exact classifier_slot_match_and_unknown.2.2 (-22) (fun _ => 0) (Or.inl (by decide))

/-- C8: for every accepted mknod/mknodat request, the sentinel bridge errno
`-ENOMEDIUM` (−123) — and only it — triggers the `insert_unix_device`
fallback, which replies 0 on success (and `-EPERM` if the insertion
fails); any other bridge errno is replied as-is without the fallback. -/
theorem enomedium_triggers_insert_fallback :
    ∀ (env : DeviceEnv) (a : MknodArgsRec),
      ((CallForkmknod env a).1 = -123 →
        (doDeviceSyscall env a).insertCalled = true ∧
        (env.insertOk = true → (doDeviceSyscall env a).ret = 0) ∧
        (env.insertOk = false → (doDeviceSyscall env a).ret = -1)) ∧
      (∀ e : Int, (CallForkmknod env a).1 = e → e ≠ -123 →
        (doDeviceSyscall env a).ret = e ∧ (doDeviceSyscall env a).insertCalled = false) := by
  intro env a
  constructor
  · intro h
    simp only [doDeviceSyscall, h]
    norm_num
    split_ifs with hins <;> simp [hins]
  · intro e he hne
    simp only [doDeviceSyscall, he]
    rw [if_pos hne]
    exact ⟨rfl, rfl⟩

/-- C8 (witness): with the bridge child reporting errno 123 (ENOMEDIUM) and
a successful insertion, the fallback is invoked and the reply is 0. -/
theorem enomedium_triggers_insert_fallback_witness :
    (doDeviceSyscall ⟨some (0, 0, 0, 0), .failParsed 123, true⟩
        ⟨1, "/dev/null", 8630, 259⟩).insertCalled = true ∧
    (doDeviceSyscall ⟨some (0, 0, 0, 0), .failParsed 123, true⟩
        ⟨1, "/dev/null", 8630, 259⟩).ret = 0 := by
  have h := (enomedium_triggers_insert_fallback
      ⟨some (0, 0, 0, 0), .failParsed 123, true⟩ ⟨1, "/dev/null", 8630, 259⟩).1 (by decide)
  exact ⟨h.1, h.2.1 (by decide)⟩

/-- C9: for every setxattr notification whose (name, value) pair is not
("trusted.overlay.opaque", "y") and whose credential lookup, id-map and
memory reads succeed, strict mode still invokes the bridge with
whiteout=0 (no outright rejection and no CONTINUE), while permissive mode
hands the call back to the kernel with CONTINUE and no bridge
invocation. -/
theorem setxattr_non_whitelisted_bridged_with_whiteout_zero :
    ∀ (req : SeccompReq) (env : XattrEnv),
      env.taskIDs.isSome = true →
      env.idmap.isSome = true →
      env.preadPathOk = true →
      env.preadNameOk = true →
      env.preadValueOk = true →
      ¬(env.name = "trusted.overlay.opaque" ∧ env.value = "y") →
      (∃ call, (HandleSetxattrSyscall false req env).bridge = some call ∧
        call.whiteout = 0 ∧ call.name = env.name ∧ call.path = env.path ∧
        call.value = env.value) ∧
      (HandleSetxattrSyscall false req env).cont = false ∧
      (HandleSetxattrSyscall true req env).bridge = none ∧
      (HandleSetxattrSyscall true req env).cont = true ∧
      (HandleSetxattrSyscall true req env).ret = 0 := by
  intro req env htask hidmap hpath hname hvalue hwl
  obtain ⟨tids, htids⟩ := Option.isSome_iff_exists.mp htask
  obtain ⟨idm, hidm⟩ := Option.isSome_iff_exists.mp hidmap
  simp only [HandleSetxattrSyscall, htids, hidm, hpath, hname, hvalue]
  norm_num
  rw [if_neg hwl, if_neg hwl]
  exact ⟨⟨_, rfl, rfl, rfl, rfl, rfl⟩, rfl, rfl, rfl, rfl⟩

/-- C9 (witness): a concrete non-whitelisted setxattr ("user.foo" = "bar")
with all reads succeeding: strict mode bridges with whiteout=0 and no
CONTINUE; permissive mode continues without bridging. -/
theorem setxattr_non_whitelisted_witness :
    (∃ call, (HandleSetxattrSyscall false ⟨1000, 0, 0, 0, 3, 0⟩
        ⟨some (0, 0, 0, 0), some ((0, 0), (0, 0)), true, "/x", true, "user.foo",
         true, "bar", .success⟩).bridge = some call ∧
      call.whiteout = 0 ∧ call.name = "user.foo" ∧ call.path = "/x" ∧
      call.value = "bar") ∧
    (HandleSetxattrSyscall false ⟨1000, 0, 0, 0, 3, 0⟩
        ⟨some (0, 0, 0, 0), some ((0, 0), (0, 0)), true, "/x", true, "user.foo",
         true, "bar", .success⟩).cont = false ∧
    (HandleSetxattrSyscall true ⟨1000, 0, 0, 0, 3, 0⟩
        ⟨some (0, 0, 0, 0), some ((0, 0), (0, 0)), true, "/x", true, "user.foo",
         true, "bar", .success⟩).bridge = none ∧
    (HandleSetxattrSyscall true ⟨1000, 0, 0, 0, 3, 0⟩
        ⟨some (0, 0, 0, 0), some ((0, 0), (0, 0)), true, "/x", true, "user.foo",
         true, "bar", .success⟩).cont = true ∧
    (HandleSetxattrSyscall true ⟨1000, 0, 0, 0, 3, 0⟩
        ⟨some (0, 0, 0, 0), some ((0, 0), (0, 0)), true, "/x", true, "user.foo",
         true, "bar", .success⟩).ret = 0 :=
  setxattr_non_whitelisted_bridged_with_whiteout_zero ⟨1000, 0, 0, 0, 3, 0⟩
    ⟨some (0, 0, 0, 0), some ((0, 0), (0, 0)), true, "/x", true, "user.foo",
     true, "bar", .success⟩
    (by decide) (by decide) (by decide) (by decide) (by decide) (by decide)

/-- C10: the mknodat dirfd check compares only the low 32 bits of args[0]
against AT_FDCWD (−100, i.e. 4294967196 as u32): every congruent dirfd is
accepted (the handler proceeds to the device stage), and every other value
is refused without bridging — `-EINVAL` in strict mode, CONTINUE in
permissive mode. -/
theorem mknodat_dirfd_low32_truncation :
    ∀ (permissive : Bool) (req : SeccompReq) (env : MknodEnv),
      (req.args0 % 4294967296 = 4294967196 →
        HandleMknodatSyscall permissive req env = mknodatDeviceStage permissive req env) ∧
      (req.args0 % 4294967296 ≠ 4294967196 →
        HandleMknodatSyscall false req env = ⟨-22, false, none, false⟩ ∧
        HandleMknodatSyscall true req env = ⟨0, true, none, false⟩) := by
  intro permissive req env
  constructor
  · intro h
    simp only [HandleMknodatSyscall, h]
    norm_num
  · intro h
    simp only [HandleMknodatSyscall]
    rw [if_pos h, if_pos h]
    norm_num

/-- C10 (witness): `args[0] = 2^32 + 4294967196` (congruent to AT_FDCWD
modulo 2^32 but not equal to it) is accepted and proceeds to the device
stage; `args[0] = 5` is refused with `-EINVAL` in strict mode and CONTINUE
in permissive mode. -/
theorem mknodat_dirfd_low32_truncation_witness :
    HandleMknodatSyscall false ⟨1000, 8589934492, 4096, 8630, 259, 0⟩
        ⟨true, "/dev/null", ⟨some (0, 0, 0, 0), .success, true⟩⟩ =
      mknodatDeviceStage false ⟨1000, 8589934492, 4096, 8630, 259, 0⟩
        ⟨true, "/dev/null", ⟨some (0, 0, 0, 0), .success, true⟩⟩ ∧
    HandleMknodatSyscall false ⟨1000, 5, 4096, 8630, 259, 0⟩
        ⟨true, "/dev/null", ⟨some (0, 0, 0, 0), .success, true⟩⟩ =
      ⟨-22, false, none, false⟩ ∧
    HandleMknodatSyscall true ⟨1000, 5, 4096, 8630, 259, 0⟩
        ⟨true, "/dev/null", ⟨some (0, 0, 0, 0), .success, true⟩⟩ =
      ⟨0, true, none, false⟩ :=
  ⟨(mknodat_dirfd_low32_truncation false ⟨1000, 8589934492, 4096, 8630, 259, 0⟩
      ⟨true, "/dev/null", ⟨some (0, 0, 0, 0), .success, true⟩⟩).1 (by decide),
   ((mknodat_dirfd_low32_truncation false ⟨1000, 5, 4096, 8630, 259, 0⟩
      ⟨true, "/dev/null", ⟨some (0, 0, 0, 0), .success, true⟩⟩).2 (by decide)).1,
   ((mknodat_dirfd_low32_truncation true ⟨1000, 5, 4096, 8630, 259, 0⟩
      ⟨true, "/dev/null", ⟨some (0, 0, 0, 0), .success, true⟩⟩).2 (by decide)).2⟩

/-- C5 (counterexample): an invalid frame — correct sizes but non-zero
reserved field — gets an empty reply, yet the receive loop does not close
the connection: it goes straight back to receiving (only a failed receive
closes it), so the claim's "and closes the connection" is false here. -/
theorem invalid_frame_leaves_connection_open :
    connStep ⟨⟨80, 16, 64⟩, 160⟩ (.frame ⟨1, 100, 1, ⟨80, 16, 64⟩⟩ 160) =
      ⟨.empty, false⟩ ∧
    (connStep ⟨⟨80, 16, 64⟩, 160⟩ (.frame ⟨1, 100, 1, ⟨80, 16, 64⟩⟩ 160)).closes ≠ true := by
  decide

/-- C5 (amended): a frame is invalid exactly when it is too short, has a
non-zero reserved field, or any of its three size fields differs from the
sizes cached at supervisor start; every invalid frame is answered with an
empty reply (a short write) and the connection is left open — it is closed
only when a receive fails. -/
theorem invalid_frame_validity_and_empty_reply :
    ∀ (env : FrameEnv) (msg : ProxyMsg) (bytes : Nat),
      (IsValidSeccompIovec env msg bytes = false ↔
        (bytes < env.msgSizeMin ∨ msg.reserved ≠ 0 ∨ msg.sizes ≠ env.expected)) ∧
      (IsValidSeccompIovec env msg bytes = false →
        connStep env (.frame msg bytes) = ⟨.empty, false⟩) ∧
      connStep env .recvErr = ⟨.noReply, true⟩ := by
  intro env msg bytes
  obtain ⟨exp, minSz⟩ := env
  obtain ⟨res, mp, ip, sz⟩ := msg
  obtain ⟨s1, s2, s3⟩ := sz
  obtain ⟨t1, t2, t3⟩ := exp
  refine ⟨?_, ?_, rfl⟩
  · simp only [IsValidSeccompIovec, SizesRec.mk.injEq]
    split_ifs <;> simp_all
  · intro h
    simp only [connStep, h]
    rw [if_neg]
    simp [h]

/-- C5 (witness for the amended theorem): a frame whose `seccomp_notif`
size field (100) differs from the cached size (80) is invalid, and the
step for it is an empty reply without closing the connection. -/
theorem invalid_frame_validity_witness :
    IsValidSeccompIovec ⟨⟨80, 16, 64⟩, 160⟩ ⟨0, 100, 1, ⟨100, 16, 64⟩⟩ 160 = false ∧
    connStep ⟨⟨80, 16, 64⟩, 160⟩ (.frame ⟨0, 100, 1, ⟨100, 16, 64⟩⟩ 160) =
      ⟨.empty, false⟩ :=
  ⟨(invalid_frame_validity_and_empty_reply ⟨⟨80, 16, 64⟩, 160⟩
      ⟨0, 100, 1, ⟨100, 16, 64⟩⟩ 160).1.mpr
      (Or.inr (Or.inr (by decide))),
   (invalid_frame_validity_and_empty_reply ⟨⟨80, 16, 64⟩, 160⟩
      ⟨0, 100, 1, ⟨100, 16, 64⟩⟩ 160).2.1 (by decide)⟩

/-- C4 (counterexample): with a `raw.seccomp` override set and
`security.syscalls.intercept.mknod` enabled on a fully capable daemon, the
compiled profile is the raw text verbatim and contains neither anti-escape
rule. -/
theorem raw_override_drops_escape_rules :
    seccompGetPolicyContent osAllCaps false cfgRawPlusMknod = .ok "x\n" ∧
    ¬ strContains "x\n" seccompDisallowTraceRule ∧
    ¬ strContains "x\n" seccompDisallowListenerRule := by
  refine ⟨rfl, ?_, ?_⟩ <;>
  · intro h
    have hl := strContains_length h
    revert hl
    decide

/-- C4 (amended): for every configuration with no raw override for which
the intercept probe reports interception needed (`.ok true`), the compiled
profile contains both anti-escape rules denying the seccomp syscall with
masked-equal on RET_TRACE and on FILTER_FLAG_NEW_LISTENER. -/
theorem intercepted_policy_has_escape_rules :
    ∀ (os : OSEnv) (privileged : Bool) (cfg : String → Option String) (p : String),
      cfgGet cfg "raw.seccomp" = "" →
      InstanceNeedsIntercept os privileged cfg = .ok true →
      seccompGetPolicyContent os privileged cfg = .ok p →
      strContains p seccompDisallowTraceRule ∧
      strContains p seccompDisallowListenerRule := by
  intro os privileged cfg p hraw hneeds hcomp
  unfold seccompGetPolicyContent at hcomp
  rw [hraw] at hcomp
  rw [if_neg (by simp)] at hcomp
  rw [hneeds] at hcomp
  simp only [if_true] at hcomp
  repeat' split at hcomp
  all_goals cases hcomp
  all_goals
    first
    | exact ⟨strContains_core_trace .., strContains_core_listener ..⟩
    | exact ⟨strContains_append_right _ _ _ (strContains_core_trace ..),
             strContains_append_right _ _ _ (strContains_core_listener ..)⟩
    | exact ⟨strContains_append_right _ _ _
               (strContains_append_right _ _ _ (strContains_core_trace ..)),
             strContains_append_right _ _ _
               (strContains_append_right _ _ _ (strContains_core_listener ..))⟩

set_option maxRecDepth 40000 in
/-- C4 (witness for the amended theorem): an instance with only
`security.syscalls.intercept.mknod` enabled on a fully capable daemon
compiles to a profile containing both anti-escape rules. -/
theorem intercepted_policy_has_escape_rules_witness :
    strContains policyMknodOnly seccompDisallowTraceRule ∧
    strContains policyMknodOnly seccompDisallowListenerRule :=
  intercepted_policy_has_escape_rules osAllCaps false cfgMknodOnly policyMknodOnly
    rfl rfl (by rfl)

/-- C6 (counterexample): a configuration with no raw override, no
allow-list, no intercept categories and deny_default explicitly false — but
with one `security.syscalls.deny` entry — compiles to header, mode line,
`[all]` marker AND the deny entry, so the output is not exactly the
three-piece concatenation the claim states (under either mode spelling). -/
theorem deny_entries_remain_in_minimal_policy :
    seccompGetPolicyContent osAllCaps false cfgDenyDefaultFalsePlusDeny =
      .ok "2\ndenylist\n[all]\nkexec_load errno 38\n" ∧
    "2\ndenylist\n[all]\nkexec_load errno 38\n" ≠ "2\ndenylist\n[all]\n" ∧
    "2\ndenylist\n[all]\nkexec_load errno 38\n" ≠ "2\nblacklist\n[all]\n" := by
  refine ⟨rfl, by decide, by decide⟩

/-- C6 (amended): for every configuration with no raw override, no
allow-list, no intercept category enabled, deny_default explicitly false,
and additionally no compat-deny flag and no deny/blacklist entries, the
compiler's output is exactly header plus mode line (denylist or blacklist
per the probed capability flag) plus the `[all]` marker, with nothing else
appended. -/
theorem empty_config_policy_exact :
    ∀ (os : OSEnv) (privileged : Bool) (cfg : String → Option String) (v : String),
      cfgGet cfg "raw.seccomp" = "" →
      cfgGet cfg "security.syscalls.allow" = "" →
      cfgGet cfg "security.syscalls.whitelist" = "" →
      cfg "security.syscalls.deny_default" = some v →
      cfgIsTrue v = false →
      cfgIsFalseOrEmpty (cfgGet cfg "security.syscalls.intercept.mknod") = true →
      cfgIsFalseOrEmpty (cfgGet cfg "security.syscalls.intercept.sched_setscheduler") = true →
      cfgIsFalseOrEmpty (cfgGet cfg "security.syscalls.intercept.setxattr") = true →
      cfgIsFalseOrEmpty (cfgGet cfg "security.syscalls.intercept.sysinfo") = true →
      cfgIsFalseOrEmpty (cfgGet cfg "security.syscalls.intercept.mount") = true →
      cfgIsFalseOrEmpty (cfgGet cfg "security.syscalls.intercept.bpf") = true →
      cfg "security.syscalls.deny_compat" = none →
      cfg "security.syscalls.blacklist_compat" = none →
      cfg "security.syscalls.deny" = none →
      cfg "security.syscalls.blacklist" = none →
      seccompGetPolicyContent os privileged cfg =
        .ok (seccompHeader ++
          (if os.lxcAllowDenySyntax then "denylist\n[all]\n" else "blacklist\n[all]\n")) := by
  intro os privileged cfg v hraw hallow hwhite hdd hddv h1 h2 h3 h4 h5 h6
    hcompat1 hcompat2 hdeny1 hdeny2
  have hal : seccompAllowlist cfg = "" := by
    unfold seccompAllowlist
    rw [hallow, if_pos rfl, hwhite]
  have hni : InstanceNeedsIntercept os privileged cfg = .ok false := by
    unfold InstanceNeedsIntercept
    split_ifs <;>
      simp [interceptChecks, h1, h2, h3, h4, h5, h6]
  have hbase : seccompPolicyBase os cfg =
      seccompHeader ++
        (if os.lxcAllowDenySyntax then "denylist\n[all]\n" else "blacklist\n[all]\n") := by
    unfold seccompPolicyBase
    rw [if_neg (by simp [hal]), hdd]
    simp [hddv]
  have hcv : seccompCompatV cfg = "" := by
    unfold seccompCompatV
    rw [hcompat1]
    unfold cfgGet
    rw [hcompat2]
    rfl
  have hdl : seccompDenylistV cfg = "" := by
    unfold seccompDenylistV
    rw [hdeny1]
    unfold cfgGet
    rw [hdeny2]
    rfl
  unfold seccompGetPolicyContent
  rw [hraw, if_neg (by simp), hni]
  simp only [Bool.false_eq_true, if_false]
  rw [if_neg (by simp [hal]), if_neg (by simp [hcv, cfgIsTrue, strToLower]),
    if_neg (by simp [hdl]), hbase]

/-- C6 (witness for the amended theorem): the concrete configuration with
only `deny_default=false` set compiles, on a daemon with the new spelling
flag, to exactly `2\ndenylist\n[all]\n`. -/
theorem empty_config_policy_exact_witness :
    seccompGetPolicyContent osAllCaps false cfgDenyDefaultFalse =
      .ok "2\ndenylist\n[all]\n" := by
  have h := empty_config_policy_exact osAllCaps false cfgDenyDefaultFalse "false"
    rfl rfl rfl rfl (by decide) (by decide) (by decide) (by decide) (by decide)
    (by decide) (by decide) rfl rfl rfl rfl
  rw [h]
  rfl

end Seccomp
